import Mathlib

/-!
# Verification of the admin console's session-gated data-synchronization core

Shallow embedding of the moderation client (`src/App.jsx`,
`src/pages/AllClients.jsx`, `src/pages/BuilderVerification.jsx`, and the
`Header` / `AllProperty` components bundled with them): session storage,
route guarding, list fetching, block/unblock mutation, filtering and CSV
export.  Each claim of the specification is stated and settled against
these definitions.
-/

namespace AdminConsole

/-! ## JavaScript value helpers

Absent values (`null` / `undefined`) are modeled as `Option.none`; the
helpers below embed the JS coercions the source relies on. -/

/-- Template-literal interpolation of a possibly-absent string:
in JS, an absent value renders as the word given by `absent`
(for example "null" for a missing `localStorage` item). -/
def tmplOpt (absent : String) (o : Option String) : String :=
  match o with
  | none => absent
  | some s => s

/-- JS falsiness of a possibly-absent string: `null`/`undefined` and the
empty string are falsy. -/
def jsFalsyStr (o : Option String) : Bool :=
  match o with
  | none => true
  | some s => s == ""

/-- JS string-or-default, as in `u.phone || "N/A"`: the default is used when
the value is absent or the empty string. -/
def jsOrStr (o : Option String) (d : String) : String :=
  match o with
  | none => d
  | some s => if s == "" then d else s

/-- JS `String.prototype.toLowerCase`, character by character
(same semantics as `String.toLower`, stated on the character list so the
kernel can evaluate it). -/
def jsToLower (s : String) : String := String.mk (s.data.map Char.toLower)

/-- JS `String.prototype.includes`: substring containment. -/
def strIncludes (hay needle : String) : Bool := decide (needle.data <:+: hay.data)

/-! ## Data model

Record shapes as built by the fetch handlers from the server payload of
`GET /api/users/list` (see `fetchUsers` / `fetchOwners`). -/

/-- Notification preference flags carried on a user record. -/
structure Prefs where
  emailNotifications : Bool
  smsNotifications : Bool
deriving DecidableEq

/-- Postal address subobject of a user record. -/
structure Address where
  line1 : String
  line2 : String
  city : String
  state : String
  pincode : String
  country : String
deriving DecidableEq

/-- One element of the `users` array in the server response of
`GET /api/users/list`. -/
structure ServerUser where
  id : String
  name : String
  email : String
  phone : Option String
  alternatePhone : Option String
  address : Option Address
  role : String
  isBlocked : Bool
  createdAt : Option String
  gender : Option String
  dateOfBirth : Option String
  bio : Option String
  preferences : Option Prefs
  profileImage : Option String
deriving DecidableEq

/-- Stored admin profile (`adminInfo` in `localStorage`), as read by
`Header` and by `ProtectedRoute` via `getStoredAdminInfo`. -/
structure Profile where
  name : String
  isEnvAgent : Bool
deriving DecidableEq

/-- The `localStorage` keys the application reads and writes.  A key that
was never set or was removed is `none`. -/
structure StorageState where
  adminToken : Option String
  adminName : Option String
  adminInfo : Option Profile
  adminRole : Option String
deriving DecidableEq

/-- Rendering of a date by the platform's locale formatter
(`toLocaleDateString`).  The formatter itself is a browser call outside the
embedding; it is kept as the raw date string, which preserves everything
the claims depend on (the formatted value is only ever passed through). -/
def localeDate (s : String) : String := s

/-- The `formatDate` helper of `AllClients.jsx` / `BuilderVerification.jsx`:
falsy input renders as "N/A", otherwise the locale rendering of the date. -/
def formatDate (dateString : Option String) : String :=
  match dateString with
  | none => "N/A"
  | some s => if s == "" then "N/A" else localeDate s

namespace AllClients

/-- A client record as stored in the `users` state of `AllClients`:
the server user with `isBlocked` folded into the `status` string and
`createdAt` pre-formatted into `joinedAt`. -/
structure ClientRecord where
  id : String
  name : String
  email : String
  phone : Option String
  alternatePhone : Option String
  address : Option Address
  role : String
  status : String
  joinedAt : String
  gender : Option String
  dateOfBirth : Option String
  bio : Option String
  preferences : Option Prefs
  profileImage : Option String
deriving DecidableEq

/-- The per-user mapping inside `fetchUsers` (`AllClients.jsx` lines 53-73):
`status` is "Blocked" or "Active" according to the server's `isBlocked`. -/
def mapServerUser (u : ServerUser) : ClientRecord :=
  { id := u.id
    name := u.name
    email := u.email
    phone := u.phone
    alternatePhone := u.alternatePhone
    address := u.address
    role := u.role
    status := if u.isBlocked then "Blocked" else "Active"
    joinedAt := formatDate u.createdAt
    gender := u.gender
    dateOfBirth := u.dateOfBirth
    bio := u.bio
    preferences := u.preferences
    profileImage := u.profileImage }

end AllClients

namespace BuilderVerification

/-- An owner record as stored in the `users` state of `BuilderVerification`:
unlike `AllClients`, the server's `isBlocked` boolean is kept as is. -/
structure OwnerRecord where
  id : String
  name : String
  email : String
  phone : Option String
  alternatePhone : Option String
  address : Option Address
  role : String
  isBlocked : Bool
  joinedAt : String
  gender : Option String
  dateOfBirth : Option String
  bio : Option String
  preferences : Option Prefs
  profileImage : Option String
deriving DecidableEq

/-- The per-user mapping inside `fetchOwners`
(`BuilderVerification.jsx` lines 81-99). -/
def mapServerOwner (u : ServerUser) : OwnerRecord :=
  { id := u.id
    name := u.name
    email := u.email
    phone := u.phone
    alternatePhone := u.alternatePhone
    address := u.address
    role := u.role
    isBlocked := u.isBlocked
    joinedAt := formatDate u.createdAt
    gender := u.gender
    dateOfBirth := u.dateOfBirth
    bio := u.bio
    preferences := u.preferences
    profileImage := u.profileImage }

end BuilderVerification

/-! ## Session storage operations (claim C3)

The two operations that remove the token: the explicit logout in `Header`
(bundled in `AllClients.jsx`) and the automatic clear performed by the
fetch handlers when the server answers 401. -/

/-- The `handleLogout` function of `Header` (`AllClients.jsx` lines 495-501):
removes `adminToken`, `adminName`, `adminInfo` and `adminRole`. -/
def handleLogout (st : StorageState) : StorageState :=
  { st with adminToken := none, adminName := none, adminInfo := none, adminRole := none }

/-- The 401 branch of the fetch error handlers (`AllClients.jsx` line 82,
`BuilderVerification.jsx` line 108): only `adminToken` is removed; the
other stored keys, in particular the `adminInfo` profile, are untouched. -/
def clearTokenOn401 (st : StorageState) : StorageState :=
  { st with adminToken := none }

/-! ## Route guarding (claim C6) -/

/-- Decision of the route-guarding layer for one navigation target. -/
inductive RouteDecision where
  | render
  | redirectToLogin
  | redirectToRestrictedHome
deriving DecidableEq

/-- Static policy of a navigable destination: whether it is wrapped in
`ProtectedRoute` at all, and the `allowEnvAgent` flag it is given. -/
structure RoutePolicy where
  requiresSession : Bool
  allowRestrictedAgent : Bool
deriving DecidableEq

/-- The `adminInfo?.isEnvAgent` read used by `ProtectedRoute`
(`App.jsx` line 41); a malformed or missing stored profile reads as
non-agent (`getStoredAdminInfo` returns null on parse failure). -/
def storedIsEnvAgent (st : StorageState) : Bool :=
  match st.adminInfo with
  | some p => p.isEnvAgent
  | none => false

/-- The `ProtectedRoute` component of `App.jsx` (lines 36-46), as a decision
function: falsy token redirects to login; a restricted-agent profile on a
route with `allowEnvAgent = false` redirects to the agent landing page
(`/add-property`); otherwise the children render. -/
def ProtectedRoute (allowEnvAgent : Bool) (st : StorageState) : RouteDecision :=
  if jsFalsyStr st.adminToken then .redirectToLogin
  else if storedIsEnvAgent st && !allowEnvAgent then .redirectToRestrictedHome
  else .render

/-- The route-level decision of the `App.jsx` routing tree: destinations
requiring a session are wrapped in `ProtectedRoute` with their
`allowEnvAgent` flag; the public login route renders directly.  This is a
pure function of the policy and the stored session. -/
def routeDecide (policy : RoutePolicy) (st : StorageState) : RouteDecision :=
  if policy.requiresSession then ProtectedRoute policy.allowRestrictedAgent st
  else .render

/-- Modelled from the spec, for comparison with `routeDecide`: the decision
table of spec section 4.2.  No session with `requiresSession` redirects to
login; a present session on a session-requiring route with a
restricted-agent profile and `allowRestrictedAgent = false` redirects to
the restricted home; otherwise render. -/
def specDecide (policy : RoutePolicy) (st : StorageState) : RouteDecision :=
  if !(!(jsFalsyStr st.adminToken)) && policy.requiresSession then .redirectToLogin
  else if !(jsFalsyStr st.adminToken) && policy.requiresSession
      && storedIsEnvAgent st && !policy.allowRestrictedAgent then
    .redirectToRestrictedHome
  else .render

/-! ## Refresh outcome (claim C4)

One completed `fetchUsers` / `fetchOwners` call, as a function of the token
at call time, the cached list before the call, and the network response. -/

/-- Outcome of the awaited HTTP request: a parsed payload, or an error
carrying the response status when a response exists (`error.response` may
be absent on a transport error). -/
inductive FetchResp (α : Type) where
  | ok (payload : α)
  | err (status : Option Nat)
deriving DecidableEq

namespace AllClients

/-- Result of one `fetchUsers` call (`AllClients.jsx` lines 38-87) on the
`users` cache and the stored token: a falsy token short-circuits (the
request is never issued, so no response is consumed); success replaces the
whole list with the mapped payload; a 401 error removes the token and
leaves the cache as it was; any other error leaves both untouched. -/
def fetchUsersOutcome (token : Option String) (users0 : List ClientRecord)
    (resp : FetchResp (List ServerUser)) : List ClientRecord × Option String :=
  if jsFalsyStr token then (users0, token)
  else
    match resp with
    | .ok payload => (payload.map mapServerUser, token)
    | .err s => if s = some 401 then (users0, none) else (users0, token)

end AllClients

namespace BuilderVerification

/-- Result of one `fetchOwners` call (`BuilderVerification.jsx` lines
67-113), with the same guard and error handling as `fetchUsers`. -/
def fetchOwnersOutcome (token : Option String) (users0 : List OwnerRecord)
    (resp : FetchResp (List ServerUser)) : List OwnerRecord × Option String :=
  if jsFalsyStr token then (users0, token)
  else
    match resp with
    | .ok payload => (payload.map mapServerOwner, token)
    | .err s => if s = some 401 then (users0, none) else (users0, token)

end BuilderVerification

/-! ## Block / unblock mutation (claims C1, C5, C10) -/

/-- Local outcome of invoking `toggleBlock`: rejected by the missing-id
guard, rejected by the missing-token guard, or a network request was
issued.  The source has no other pre-network outcome (in particular no
"busy" outcome). -/
inductive MutStartOutcome where
  | missingId
  | notAuthenticated
  | requestIssued
deriving DecidableEq

namespace AllClients

/-- The invocation phase of `toggleBlock` (`AllClients.jsx` lines 96-112):
the guards run, and past them the `PUT /api/users/block/:id` request is
issued unconditionally.  `inflight` is the environment's multiset of
already-issued, not-yet-resolved request ids; the source consults no such
state, so the new request is simply added to it. -/
def toggleBlockStart (token userId : Option String) (inflight : List String) :
    MutStartOutcome × List String :=
  if jsFalsyStr userId then (.missingId, inflight)
  else if jsFalsyStr token then (.notAuthenticated, inflight)
  else (.requestIssued, tmplOpt "undefined" userId :: inflight)

/-- Status string computed from the server's authoritative `isBlocked`
field of the block response (`AllClients.jsx` line 116). -/
def newStatusOf (isBlocked : Bool) : String :=
  if isBlocked then "Blocked" else "Active"

/-- The `setUsers` updater run on success of `toggleBlock`
(`AllClients.jsx` lines 119-125): map over the previous list, replacing
only the `status` field of records whose id matches. -/
def blockPatch (userId : String) (newStatus : String)
    (users : List ClientRecord) : List ClientRecord :=
  users.map fun u => if u.id = userId then { u with status := newStatus } else u

/-- The component state of `AllClients` relevant to the detail drawer. -/
structure ClientsState where
  users : List ClientRecord
  selectedUser : Option ClientRecord
  drawerOpen : Bool
deriving DecidableEq

/-- The `openDrawer` handler (`AllClients.jsx` lines 162-166). -/
def openDrawer (user : ClientRecord) (st : ClientsState) : ClientsState :=
  { st with selectedUser := some user, drawerOpen := true }

/-- The success continuation of `toggleBlock` (`AllClients.jsx` lines
114-133): the list is patched, and if the drawer's selected user has the
mutated id, its `status` is updated to the same server-confirmed value. -/
def toggleBlockSuccess (userId : String) (serverIsBlocked : Bool)
    (st : ClientsState) : ClientsState :=
  let newStatus := newStatusOf serverIsBlocked
  { st with
    users := blockPatch userId newStatus st.users
    selectedUser :=
      match st.selectedUser with
      | some sel => if sel.id = userId then some { sel with status := newStatus } else some sel
      | none => none }

end AllClients

namespace BuilderVerification

/-- The invocation phase of `toggleBlock` (`BuilderVerification.jsx` lines
122-134): only the token guard exists; past it the request is issued
unconditionally, with no in-flight check. -/
def toggleBlockStart (token : Option String) (userId : String)
    (inflight : List String) : MutStartOutcome × List String :=
  if jsFalsyStr token then (.notAuthenticated, inflight)
  else (.requestIssued, userId :: inflight)

/-- The `setUsers` updater run on success of the owner `toggleBlock`
(`BuilderVerification.jsx` lines 139-147): only the `isBlocked` field of
matching records is replaced by the server's value. -/
def ownerBlockPatch (userId : String) (newIsBlocked : Bool)
    (users : List OwnerRecord) : List OwnerRecord :=
  users.map fun u => if u.id = userId then { u with isBlocked := newIsBlocked } else u

end BuilderVerification

/-! ## Local guards before network calls (claim C2) -/

/-- A network request about to be issued, with the authorization header the
source would attach. -/
structure HttpRequest where
  method : String
  url : String
  authHeader : Option String
deriving DecidableEq

/-- Whether an operation rejected locally or issued a network request. -/
inductive LocalOutcome where
  | localReject (msg : String)
  | issued (req : HttpRequest)
deriving DecidableEq

namespace AllClients

/-- The guard-and-issue phase of `fetchUsers` (`AllClients.jsx` lines
38-50): a falsy token is rejected locally with a toast, before any network
activity. -/
def fetchUsersStart (token : Option String) : LocalOutcome :=
  if jsFalsyStr token then .localReject "Authentication token missing. Please log in."
  else .issued
    { method := "GET"
      url := "/api/users/list?role=user"
      authHeader := some ("Bearer " ++ tmplOpt "null" token) }

end AllClients

namespace BuilderVerification

/-- The guard-and-issue phase of `fetchOwners`
(`BuilderVerification.jsx` lines 67-79). -/
def fetchOwnersStart (token : Option String) : LocalOutcome :=
  if jsFalsyStr token then .localReject "Authentication token missing. Please log in."
  else .issued
    { method := "GET"
      url := "/api/users/list?role=owner"
      authHeader := some ("Bearer " ++ tmplOpt "null" token) }

end BuilderVerification

namespace AllProperty

/-- The `toggleStatus` handler of `AllProperty` (bundled in
`BuilderVerification.jsx`, lines 433-445): there is no token guard at all;
the `PUT /api/properties/:status/:id` request is always issued, with the
bearer header interpolating a missing token as the string "null". -/
def toggleStatusStart (adminToken : Option String) (id status : String) : LocalOutcome :=
  .issued
    { method := "PUT"
      url := "/api/properties/" ++ status ++ "/" ++ id
      authHeader := some ("Bearer " ++ tmplOpt "null" adminToken) }

/-- The `handleDelete` handler of `AllProperty` (lines 417-428): the only
guard is the `window.confirm` dialog (its answer is the `confirmed`
parameter); once confirmed, the DELETE request is issued with no token
check. -/
def handleDeleteStart (adminToken : Option String) (id : String)
    (confirmed : Bool) : Option HttpRequest :=
  if !confirmed then none
  else some
    { method := "DELETE"
      url := "/api/properties/delete/" ++ id
      authHeader := some ("Bearer " ++ tmplOpt "null" adminToken) }

end AllProperty

/-! ## Filtering (claim C7) -/

namespace AllClients

/-- The searchable text of a client row (`AllClients.jsx` line 149): the
template literal joins name, email, phone and role with single spaces and
lowercases the result; an absent phone interpolates as "undefined". -/
def clientSearchText (u : ClientRecord) : String :=
  jsToLower (u.name ++ " " ++ u.email ++ " " ++ tmplOpt "undefined" u.phone ++ " " ++ u.role)

/-- The filter predicate of the `filtered` memo (`AllClients.jsx` lines
144-157): a non-empty lowercased query must occur in the search text, and
with a status filter other than "All" the record's status must equal it. -/
def clientPass (search statusFilter : String) (u : ClientRecord) : Bool :=
  let q := jsToLower search
  if !(q == "") && !(strIncludes (clientSearchText u) q) then false
  else if !(statusFilter == "All") && !(u.status == statusFilter) then false
  else true

/-- The `filtered` memo itself: `users.filter` with `clientPass`. -/
def filtered (users : List ClientRecord) (search statusFilter : String) :
    List ClientRecord :=
  users.filter (clientPass search statusFilter)

end AllClients

namespace BuilderVerification

/-- The searchable text of an owner row (`BuilderVerification.jsx`
line 166). -/
def ownerSearchText (u : OwnerRecord) : String :=
  jsToLower (u.name ++ " " ++ u.email ++ " " ++ tmplOpt "undefined" u.phone ++ " " ++ u.role)

/-- The filter predicate of the `filteredOwners` memo
(`BuilderVerification.jsx` lines 157-171): the "active" filter drops
blocked owners, the "blocked" filter drops unblocked ones, and a non-empty
query must occur in the lowercased search text. -/
def ownerPass (searchQuery statusFilter : String) (u : OwnerRecord) : Bool :=
  if statusFilter == "active" && u.isBlocked then false
  else if statusFilter == "blocked" && !u.isBlocked then false
  else if !(searchQuery == "") then strIncludes (ownerSearchText u) (jsToLower searchQuery)
  else true

/-- The `filteredOwners` memo itself. -/
def filteredOwners (users : List OwnerRecord) (searchQuery statusFilter : String) :
    List OwnerRecord :=
  users.filter (ownerPass searchQuery statusFilter)

end BuilderVerification

/-! ## CSV export (claim C8) -/

/-- Doubling of embedded quote characters, the effect of
`String(c).replace` with a global quote pattern in `exportCSV`
(`AllClients.jsx` line 190). -/
def escQuotes : List Char → List Char
  | [] => []
  | c :: cs => if c = '"' then '"' :: '"' :: escQuotes cs else c :: escQuotes cs

/-- One serialized CSV field: the raw cell wrapped in double quotes with
embedded quotes doubled. -/
def csvQuoteField (c : String) : String :=
  "\"" ++ String.mk (escQuotes c.data) ++ "\""

namespace AllClients

/-- The header row of `exportCSV` (`AllClients.jsx` line 174). -/
def csvHeader : List String :=
  ["Name", "Email", "Phone", "Role", "Status", "Joined Date",
   "Address Line 1", "City", "State", "Pincode"]

/-- The cell row built for one record (`AllClients.jsx` lines 175-186):
`u.phone || "N/A"` and the `u.address?.field || ""` reads. -/
def csvRow (u : ClientRecord) : List String :=
  [u.name, u.email, jsOrStr u.phone "N/A", u.role, u.status, u.joinedAt,
   (match u.address with | none => "" | some a => a.line1),
   (match u.address with | none => "" | some a => a.city),
   (match u.address with | none => "" | some a => a.state),
   (match u.address with | none => "" | some a => a.pincode)]

/-- The `rows` array of `exportCSV`: header first, then one row per record
of the current filtered view, in order. -/
def exportRows (filteredUsers : List ClientRecord) : List (List String) :=
  csvHeader :: filteredUsers.map csvRow

/-- The final serialized text of `exportCSV` (line 190): each row's fields
quoted and joined with commas, rows joined with newlines. -/
def exportCSVtext (filteredUsers : List ClientRecord) : String :=
  String.intercalate "\n"
    ((exportRows filteredUsers).map fun r =>
      String.intercalate "," (r.map csvQuoteField))

end AllClients

/-- Modelled from the spec (section 4.6 / section 8, "round-trips under a
standard CSV reader"): reading the remainder of one quoted CSV field after
the opening quote.  A doubled quote is an escaped quote character; a
single quote at the very end closes the field; a quote followed by
anything else, or running out of input, is a parse failure. -/
def readQuotedAux : List Char → Option (List Char)
  | [] => none
  | c :: cs =>
    if c = '"' then
      match cs with
      | [] => some []
      | d :: cs2 => if d = '"' then (readQuotedAux cs2).map (fun l => '"' :: l) else none
    else (readQuotedAux cs).map (fun l => c :: l)

/-- Modelled from the spec: a standard CSV reader for one whole quoted
field, requiring the opening quote. -/
def readQuoted (l : List Char) : Option (List Char) :=
  match l with
  | '"' :: cs => readQuotedAux cs
  | _ => none

/-! ## Listing-payload unwrapping (claim C9) -/

/-- A JSON-like runtime value; `null` also stands for JS `undefined`. -/
inductive JsVal where
  | null
  | bool (b : Bool)
  | num (n : Int)
  | str (s : String)
  | arr (xs : List JsVal)
  | obj (fields : List (String × JsVal))

/-- Property access `v.k`: a field lookup on objects, absent elsewhere. -/
def JsVal.get (v : JsVal) (k : String) : Option JsVal :=
  match v with
  | .obj fields => fields.lookup k
  | _ => none

/-- The payload of `Array.isArray` tests: the element list when the value
is an array. -/
def JsVal.asArr : JsVal → Option (List JsVal)
  | .arr xs => some xs
  | _ => none

/-- JS falsiness of a runtime value (`NaN` has no counterpart here since
the embedding carries no floats). -/
def jsFalsy : JsVal → Bool
  | .null => true
  | .bool b => !b
  | .num n => n == 0
  | .str s => s == ""
  | _ => false

/-- The `extractList` utility of `AllProperty` (bundled in
`BuilderVerification.jsx`, lines 380-388), probe for probe: falsy input
gives the empty list; then the first of `resData` itself, `resData.data`,
`resData.properties`, `resData.success.data`, `resData.data.data` that is
an array is returned; otherwise the empty list. -/
def extractList (resData : JsVal) : List JsVal :=
  if jsFalsy resData then []
  else
    match resData.asArr with
    | some xs => xs
    | none =>
      match (resData.get "data").bind JsVal.asArr with
      | some xs => xs
      | none =>
        match (resData.get "properties").bind JsVal.asArr with
        | some xs => xs
        | none =>
          match ((resData.get "success").bind (fun v => v.get "data")).bind JsVal.asArr with
          | some xs => xs
          | none =>
            match ((resData.get "data").bind (fun v => v.get "data")).bind JsVal.asArr with
            | some xs => xs
            | none => []

/-- A concrete client record, used by the concrete-input witnesses. -/
def sampleClient : AllClients.ClientRecord :=
  { id := "u1"
    name := "Ada"
    email := "ada@example.com"
    phone := some "123"
    alternatePhone := none
    address := none
    role := "user"
    status := "Active"
    joinedAt := "N/A"
    gender := none
    dateOfBirth := none
    bio := none
    preferences := none
    profileImage := none }

/-- A concrete owner record, used by the concrete-input witnesses. -/
def sampleOwner : BuilderVerification.OwnerRecord :=
  { id := "o1"
    name := "Bob"
    email := "bob@example.com"
    phone := none
    alternatePhone := none
    address := none
    role := "owner"
    isBlocked := false
    joinedAt := "N/A"
    gender := none
    dateOfBirth := none
    bio := none
    preferences := none
    profileImage := none }

/-! ## Helper lemmas -/

/-- The empty needle occurs in every string (as JS `includes("")`). -/
theorem strIncludes_empty (hay : String) : strIncludes hay "" = true := by
  simp only [strIncludes, decide_eq_true_eq]
  exact ⟨[], hay.data, by simp⟩

/-! ## C6 — route-guard decision table -/

/-- C6: the route-level decision function is pure (it is a function of the
policy and the stored session only) and coincides with the specification's
decision table on every policy and every session state: no session on a
session-requiring route redirects to login; a restricted-agent profile on
a session-requiring route with `allowRestrictedAgent = false` redirects to
the restricted home; every other combination renders. -/
theorem routeDecide_matches_spec_table (policy : RoutePolicy) (st : StorageState) :
    routeDecide policy st = specDecide policy st := by
  rcases policy with ⟨req, allow⟩
  cases req <;> cases allow <;>
    cases htok : jsFalsyStr st.adminToken <;>
    cases hag : storedIsEnvAgent st <;>
      simp [routeDecide, ProtectedRoute, specDecide, htok, hag]

/-! ## C3 — token/profile session invariant -/

/-- C3 counterexample: from a state holding both a token and a profile,
the automatic clear performed on a 401 response removes the token but
leaves the stored profile in place, so a profile-without-token state is
reachable, contradicting the claimed invariant preservation. -/
theorem clearTokenOn401_leaves_profile :
    (clearTokenOn401
      { adminToken := some "tok", adminName := some "Ada",
        adminInfo := some { name := "Ada", isEnvAgent := false },
        adminRole := some "admin" }).adminToken = none ∧
    (clearTokenOn401
      { adminToken := some "tok", adminName := some "Ada",
        adminInfo := some { name := "Ada", isEnvAgent := false },
        adminRole := some "admin" }).adminInfo
      = some { name := "Ada", isEnvAgent := false } :=
  ⟨rfl, rfl⟩

/-- C3 amended: the explicit logout removes the token and the stored
profile together (preserving the invariant), but the automatic clear on a
401 response removes only the token and leaves the stored profile, name
and role exactly as they were. -/
theorem session_clear_ops (st : StorageState) :
    (handleLogout st).adminToken = none ∧
    (handleLogout st).adminInfo = none ∧
    (handleLogout st).adminName = none ∧
    (handleLogout st).adminRole = none ∧
    (clearTokenOn401 st).adminToken = none ∧
    (clearTokenOn401 st).adminInfo = st.adminInfo ∧
    (clearTokenOn401 st).adminName = st.adminName ∧
    (clearTokenOn401 st).adminRole = st.adminRole :=
  ⟨rfl, rfl, rfl, rfl, rfl, rfl, rfl, rfl⟩

/-! ## C1 — no in-flight serialization of block/unblock -/

/-- C1 counterexample: with a token present, invoking `toggleBlock` twice
for the same id before the first request resolves issues a network request
both times — after the double-trigger two requests are in flight, not one,
and the second invocation's outcome is `requestIssued`, not a busy
rejection. -/
theorem toggleBlock_double_trigger_two_requests :
    (AllClients.toggleBlockStart (some "tok") (some "u1") []).1
        = MutStartOutcome.requestIssued ∧
    (AllClients.toggleBlockStart (some "tok") (some "u1")
        (AllClients.toggleBlockStart (some "tok") (some "u1") []).2).1
        = MutStartOutcome.requestIssued ∧
    (AllClients.toggleBlockStart (some "tok") (some "u1")
        (AllClients.toggleBlockStart (some "tok") (some "u1") []).2).2.length = 2 := by
  decide

/-- C1 amended: `toggleBlock` has no per-id serialization: past the
missing-id and missing-token guards it always issues the network request,
even when a request for the same id is already in flight, so a
double-trigger issues two network calls; no busy outcome exists in the
code. -/
theorem toggleBlock_no_inflight_guard (t uid : String) (ht : ¬ t = "")
    (hu : ¬ uid = "") (inflight : List String) (_hbusy : uid ∈ inflight) :
    AllClients.toggleBlockStart (some t) (some uid) inflight
        = (MutStartOutcome.requestIssued, uid :: inflight) ∧
    BuilderVerification.toggleBlockStart (some t) uid inflight
        = (MutStartOutcome.requestIssued, uid :: inflight) := by
  constructor
  · simp [AllClients.toggleBlockStart, jsFalsyStr, tmplOpt, ht, hu]
  · simp [BuilderVerification.toggleBlockStart, jsFalsyStr, ht]

/-- C1 witness: the amended statement at a concrete token and id, with a
request for the same id already in flight. -/
theorem toggleBlock_no_inflight_guard_witness :
    AllClients.toggleBlockStart (some "tok") (some "u1") ["u1"]
        = (MutStartOutcome.requestIssued, "u1" :: ["u1"]) ∧
    BuilderVerification.toggleBlockStart (some "tok") "u1" ["u1"]
        = (MutStartOutcome.requestIssued, "u1" :: ["u1"]) :=
  toggleBlock_no_inflight_guard "tok" "u1" (by decide) (by decide) ["u1"] (by decide)

/-! ## C2 — local rejection of authorized calls without a token -/

/-- C2 counterexample: with no stored token, the property moderation
handlers still issue their network requests — `toggleStatus` sends the PUT
and `handleDelete` (once confirmed) sends the DELETE, both with the header
"Bearer null" — instead of rejecting locally. -/
theorem missing_token_still_issues_property_requests :
    AllProperty.toggleStatusStart none "p1" "approve"
        = LocalOutcome.issued
            { method := "PUT", url := "/api/properties/approve/p1",
              authHeader := some "Bearer null" } ∧
    AllProperty.handleDeleteStart none "p1" true
        = some
            { method := "DELETE", url := "/api/properties/delete/p1",
              authHeader := some "Bearer null" } := by
  constructor <;> decide

/-- C2 amended: the user-list fetches and the user block/unblock reject a
falsy token locally, before any network request; but the property
approve/disapprove and delete handlers perform no token check and issue
their requests even with the token absent, interpolating it as "null" in
the bearer header. -/
theorem local_token_guard_coverage (tok : Option String)
    (hfalsy : jsFalsyStr tok = true) (uid : String) (hu : ¬ uid = "")
    (inflight : List String) (id status : String) :
    AllClients.fetchUsersStart tok
        = LocalOutcome.localReject "Authentication token missing. Please log in." ∧
    BuilderVerification.fetchOwnersStart tok
        = LocalOutcome.localReject "Authentication token missing. Please log in." ∧
    AllClients.toggleBlockStart tok (some uid) inflight
        = (MutStartOutcome.notAuthenticated, inflight) ∧
    BuilderVerification.toggleBlockStart tok uid inflight
        = (MutStartOutcome.notAuthenticated, inflight) ∧
    AllProperty.toggleStatusStart none id status
        = LocalOutcome.issued
            { method := "PUT", url := "/api/properties/" ++ status ++ "/" ++ id,
              authHeader := some "Bearer null" } ∧
    AllProperty.handleDeleteStart none id true
        = some
            { method := "DELETE", url := "/api/properties/delete/" ++ id,
              authHeader := some "Bearer null" } := by
  have hb : ("Bearer " ++ tmplOpt "null" none) = "Bearer null" := by decide
  have huid : jsFalsyStr (some uid) = false := by simp [jsFalsyStr, hu]
  refine ⟨?_, ?_, ?_, ?_, ?_, ?_⟩
  · simp [AllClients.fetchUsersStart, hfalsy]
  · simp [BuilderVerification.fetchOwnersStart, hfalsy]
  · simp [AllClients.toggleBlockStart, hfalsy, huid]
  · simp [BuilderVerification.toggleBlockStart, hfalsy]
  · simp [AllProperty.toggleStatusStart, hb]
  · simp [AllProperty.handleDeleteStart, hb]

/-- C2 witness: the amended statement at a missing token and concrete
entity ids. -/
theorem local_token_guard_coverage_witness :
    AllClients.fetchUsersStart none
        = LocalOutcome.localReject "Authentication token missing. Please log in." ∧
    BuilderVerification.fetchOwnersStart none
        = LocalOutcome.localReject "Authentication token missing. Please log in." ∧
    AllClients.toggleBlockStart none (some "u1") []
        = (MutStartOutcome.notAuthenticated, []) ∧
    BuilderVerification.toggleBlockStart none "u1" []
        = (MutStartOutcome.notAuthenticated, []) ∧
    AllProperty.toggleStatusStart none "p1" "approve"
        = LocalOutcome.issued
            { method := "PUT", url := "/api/properties/approve/p1",
              authHeader := some "Bearer null" } ∧
    AllProperty.handleDeleteStart none "p1" true
        = some
            { method := "DELETE", url := "/api/properties/delete/p1",
              authHeader := some "Bearer null" } :=
  local_token_guard_coverage none rfl "u1" (by decide) [] "p1" "approve"

/-! ## C4 — atomicity of refresh failure -/

/-- C4: when a refresh call made with a (non-falsy) token fails with
status 401, the cached record list is returned exactly as it was before
the call and the stored token is removed; when it fails with any other
status (or with no response status at all), both the cache and the token
are unchanged. -/
theorem refresh_401_atomicity (t : String) (ht : ¬ t = "")
    (u0 : List AllClients.ClientRecord)
    (o0 : List BuilderVerification.OwnerRecord)
    (s : Option Nat) (hs : ¬ s = some 401) :
    AllClients.fetchUsersOutcome (some t) u0 (.err (some 401)) = (u0, none) ∧
    BuilderVerification.fetchOwnersOutcome (some t) o0 (.err (some 401)) = (o0, none) ∧
    AllClients.fetchUsersOutcome (some t) u0 (.err s) = (u0, some t) ∧
    BuilderVerification.fetchOwnersOutcome (some t) o0 (.err s) = (o0, some t) := by
  refine ⟨?_, ?_, ?_, ?_⟩ <;>
    simp [AllClients.fetchUsersOutcome, BuilderVerification.fetchOwnersOutcome,
      jsFalsyStr, ht, hs]

/-- C4 witness: the statement at a concrete token, concrete caches, and a
concrete non-401 failure status. -/
theorem refresh_401_atomicity_witness :
    AllClients.fetchUsersOutcome (some "tok") [sampleClient] (.err (some 401))
        = ([sampleClient], none) ∧
    BuilderVerification.fetchOwnersOutcome (some "tok") [sampleOwner] (.err (some 401))
        = ([sampleOwner], none) ∧
    AllClients.fetchUsersOutcome (some "tok") [sampleClient] (.err (some 500))
        = ([sampleClient], some "tok") ∧
    BuilderVerification.fetchOwnersOutcome (some "tok") [sampleOwner] (.err (some 500))
        = ([sampleOwner], some "tok") :=
  refresh_401_atomicity "tok" (by decide) [sampleClient] [sampleOwner]
    (some 500) (by decide)

/-! ## C5 — frame property of a successful block/unblock -/

/-- C5: a successful block/unblock patch preserves the list length and the
order of records; at every position every field other than the moderation
field is unchanged (the patched record equals the old one with only the
moderation field substituted); records whose id differs from the target
are completely unchanged; and the targeted record's moderation field is
set to the server-confirmed value — "Blocked"/"Active" from the response's
`isBlocked` for clients, the raw `isBlocked` boolean for owners. -/
theorem apply_success_frame (users : List AllClients.ClientRecord)
    (owners : List BuilderVerification.OwnerRecord) (uid : String) (b : Bool) :
    (AllClients.blockPatch uid (AllClients.newStatusOf b) users).length = users.length ∧
    (BuilderVerification.ownerBlockPatch uid b owners).length = owners.length ∧
    (∀ i (h : i < users.length)
        (h2 : i < (AllClients.blockPatch uid (AllClients.newStatusOf b) users).length),
      ((AllClients.blockPatch uid (AllClients.newStatusOf b) users).get ⟨i, h2⟩
          = { users.get ⟨i, h⟩ with
                status := ((AllClients.blockPatch uid (AllClients.newStatusOf b) users).get
                  ⟨i, h2⟩).status }) ∧
      ((users.get ⟨i, h⟩).id ≠ uid →
        (AllClients.blockPatch uid (AllClients.newStatusOf b) users).get ⟨i, h2⟩
          = users.get ⟨i, h⟩) ∧
      ((users.get ⟨i, h⟩).id = uid →
        ((AllClients.blockPatch uid (AllClients.newStatusOf b) users).get ⟨i, h2⟩).status
          = AllClients.newStatusOf b)) ∧
    (∀ i (h : i < owners.length)
        (h2 : i < (BuilderVerification.ownerBlockPatch uid b owners).length),
      ((BuilderVerification.ownerBlockPatch uid b owners).get ⟨i, h2⟩
          = { owners.get ⟨i, h⟩ with
                isBlocked := ((BuilderVerification.ownerBlockPatch uid b owners).get
                  ⟨i, h2⟩).isBlocked }) ∧
      ((owners.get ⟨i, h⟩).id ≠ uid →
        (BuilderVerification.ownerBlockPatch uid b owners).get ⟨i, h2⟩
          = owners.get ⟨i, h⟩) ∧
      ((owners.get ⟨i, h⟩).id = uid →
        ((BuilderVerification.ownerBlockPatch uid b owners).get ⟨i, h2⟩).isBlocked = b)) := by
  refine ⟨List.length_map _ _, List.length_map _ _, ?_, ?_⟩
  · intro i h h2
    simp only [AllClients.blockPatch, List.get_eq_getElem, List.getElem_map]
    by_cases hid : (users[i]).id = uid
    · refine ⟨by simp [hid], by simp [hid], by simp [hid]⟩
    · exact ⟨by simp [hid], fun _ => by simp [hid], fun hcontra => absurd hcontra hid⟩
  · intro i h h2
    simp only [BuilderVerification.ownerBlockPatch, List.get_eq_getElem, List.getElem_map]
    by_cases hid : (owners[i]).id = uid
    · refine ⟨by simp [hid], by simp [hid], by simp [hid]⟩
    · exact ⟨by simp [hid], fun _ => by simp [hid], fun hcontra => absurd hcontra hid⟩

/-- C5 witness: the frame statement instantiated at a singleton cache, a
matching id, and a server-confirmed block. -/
theorem apply_success_frame_witness :
    ((AllClients.blockPatch "u1" (AllClients.newStatusOf true) [sampleClient]).get
        ⟨0, by decide⟩).status = AllClients.newStatusOf true :=
  ((apply_success_frame [sampleClient] [sampleOwner] "u1" true).2.2.1 0
    (by decide) (by decide)).2.2 rfl

/-! ## C10 — drawer record agrees with the list after a mutation -/

/-- C10: after a successful block/unblock, if the drawer's selected record
has the mutated id, it is updated to the server-confirmed status and every
list record with that id carries the same status, so the drawer and the
list agree; if the selected record has a different id it is left exactly
as it was. -/
theorem drawer_status_sync (st : AllClients.ClientsState) (uid : String) (b : Bool) :
    (∀ sel, st.selectedUser = some sel → sel.id = uid →
        (AllClients.toggleBlockSuccess uid b st).selectedUser
            = some { sel with status := AllClients.newStatusOf b } ∧
        ∀ r ∈ (AllClients.toggleBlockSuccess uid b st).users,
          r.id = uid → r.status = AllClients.newStatusOf b) ∧
    (∀ sel, st.selectedUser = some sel → ¬ sel.id = uid →
        (AllClients.toggleBlockSuccess uid b st).selectedUser = some sel) := by
  constructor
  · intro sel hsel hid
    constructor
    · simp [AllClients.toggleBlockSuccess, hsel, hid]
    · intro r hr hrid
      simp only [AllClients.toggleBlockSuccess, AllClients.blockPatch,
        List.mem_map] at hr
      obtain ⟨u, _, hu⟩ := hr
      by_cases h : u.id = uid
      · rw [if_pos h] at hu
        rw [← hu]
      · rw [if_neg h] at hu
        rw [← hu] at hrid
        exact absurd hrid h
  · intro sel hsel hid
    simp [AllClients.toggleBlockSuccess, hsel, hid]

/-- C10 witness: the agreement statement at a concrete state whose drawer
shows the mutated record. -/
theorem drawer_status_sync_witness :
    (AllClients.toggleBlockSuccess "u1" true
        { users := [sampleClient], selectedUser := some sampleClient,
          drawerOpen := true }).selectedUser
      = some { sampleClient with status := AllClients.newStatusOf true } :=
  ((drawer_status_sync
      { users := [sampleClient], selectedUser := some sampleClient, drawerOpen := true }
      "u1" true).1 sampleClient rfl rfl).1

/-! ## C7 — filter: identity, order preservation, membership -/

/-- Characterization of the client filter predicate: a record passes
exactly when the status filter is "All" or matches its status, and the
query is empty or its lowercasing occurs in the record's search text. -/
theorem clientPass_iff (q f : String) (u : AllClients.ClientRecord) :
    AllClients.clientPass q f u = true ↔
      ((f = "All" ∨ u.status = f) ∧
       (q = "" ∨ strIncludes (AllClients.clientSearchText u) (jsToLower q) = true)) := by
  by_cases hql : jsToLower q = ""
  · have hT : strIncludes (AllClients.clientSearchText u) (jsToLower q) = true := by
      rw [hql]; exact strIncludes_empty _
    by_cases hf : f = "All" <;> by_cases hs : u.status = f <;>
      simp [AllClients.clientPass, hql, hT, hf, hs, strIncludes_empty]
  · have hq : ¬ q = "" := fun h => hql (by rw [h]; rfl)
    by_cases hf : f = "All" <;> by_cases hs : u.status = f <;>
      by_cases hI : strIncludes (AllClients.clientSearchText u) (jsToLower q) = true <;>
        simp [AllClients.clientPass, hql, hq, hf, hs, hI]

/-- Characterization of the owner filter predicate. -/
theorem ownerPass_iff (q f : String) (u : BuilderVerification.OwnerRecord) :
    BuilderVerification.ownerPass q f u = true ↔
      (((f = "active" → u.isBlocked = false) ∧ (f = "blocked" → u.isBlocked = true)) ∧
       (q = "" ∨ strIncludes (BuilderVerification.ownerSearchText u) (jsToLower q) = true)) := by
  by_cases hf1 : f = "active"
  · by_cases hf2 : f = "blocked"
    · exact absurd (hf1.symm.trans hf2) (by decide)
    · by_cases hb : u.isBlocked <;> by_cases hq : q = "" <;>
        by_cases hI : strIncludes (BuilderVerification.ownerSearchText u) (jsToLower q) = true <;>
          simp [BuilderVerification.ownerPass, hf1, hf2, hb, hq, hI]
  · by_cases hf2 : f = "blocked" <;> by_cases hb : u.isBlocked <;> by_cases hq : q = "" <;>
      by_cases hI : strIncludes (BuilderVerification.ownerSearchText u) (jsToLower q) = true <;>
        simp [BuilderVerification.ownerPass, hf1, hf2, hb, hq, hI]

/-- C7: the empty query with the all-statuses filter is the identity on
both collections; a filter result is always an order-preserving sublist of
its input; and membership in the result is exactly membership in the input
together with passing the status predicate and containing the lowercased
query in the record's search text (empty query matches everything). -/
theorem filter_identity_order_membership :
    (∀ users, AllClients.filtered users "" "All" = users) ∧
    (∀ users q f, (AllClients.filtered users q f).Sublist users) ∧
    (∀ users q f u, u ∈ AllClients.filtered users q f ↔
      (u ∈ users ∧ ((f = "All" ∨ u.status = f) ∧
        (q = "" ∨ strIncludes (AllClients.clientSearchText u) (jsToLower q) = true)))) ∧
    (∀ users, BuilderVerification.filteredOwners users "" "all" = users) ∧
    (∀ users q f, (BuilderVerification.filteredOwners users q f).Sublist users) ∧
    (∀ users q f u, u ∈ BuilderVerification.filteredOwners users q f ↔
      (u ∈ users ∧
        (((f = "active" → u.isBlocked = false) ∧ (f = "blocked" → u.isBlocked = true)) ∧
         (q = "" ∨ strIncludes (BuilderVerification.ownerSearchText u) (jsToLower q) = true)))) := by
  refine ⟨?_, ?_, ?_, ?_, ?_, ?_⟩
  · intro users
    apply List.filter_eq_self.mpr
    intro a _
    exact (clientPass_iff "" "All" a).mpr ⟨Or.inl rfl, Or.inl rfl⟩
  · intro users q f
    exact List.filter_sublist _
  · intro users q f u
    rw [AllClients.filtered, List.mem_filter]
    exact and_congr_right fun _ => clientPass_iff q f u
  · intro users
    apply List.filter_eq_self.mpr
    intro a _
    exact (ownerPass_iff "" "all" a).mpr
      ⟨⟨fun h => absurd h (by decide), fun h => absurd h (by decide)⟩, Or.inl rfl⟩
  · intro users q f
    exact List.filter_sublist _
  · intro users q f u
    rw [BuilderVerification.filteredOwners, List.mem_filter]
    exact and_congr_right fun _ => ownerPass_iff q f u

/-- C7 witness: the identity and membership statements at concrete
records and queries. -/
theorem filter_identity_witness :
    AllClients.filtered [sampleClient] "" "All" = [sampleClient] ∧
    BuilderVerification.filteredOwners [sampleOwner] "" "all" = [sampleOwner] :=
  ⟨filter_identity_order_membership.1 [sampleClient],
   filter_identity_order_membership.2.2.2.1 [sampleOwner]⟩

/-! ## C8 — CSV serialization -/

/-- Reading back an escaped field body followed by the closing quote
recovers the original characters. -/
theorem readQuotedAux_esc (l : List Char) :
    readQuotedAux (escQuotes l ++ ['"']) = some l := by
  induction l with
  | nil => rfl
  | cons c cs ih =>
    by_cases hc : c = '"'
    · subst hc
      simp [escQuotes, readQuotedAux, ih]
    · simp only [escQuotes, if_neg hc, List.cons_append]
      rw [readQuotedAux.eq_def]
      simp [hc, ih]

/-- C8: the serialized export has exactly one header row carrying the
fixed column labels in order, followed by one row per visible record in
the filtered view's order (so the row count is the filtered length plus
one); and every field is wrapped in double quotes with embedded quotes
doubled, so a standard CSV field reader recovers the original value
exactly. -/
theorem export_csv_shape (fl : List AllClients.ClientRecord) :
    (AllClients.exportRows fl).length = fl.length + 1 ∧
    (AllClients.exportRows fl).head? = some AllClients.csvHeader ∧
    AllClients.csvHeader
      = ["Name", "Email", "Phone", "Role", "Status", "Joined Date",
         "Address Line 1", "City", "State", "Pincode"] ∧
    (∀ i (h : i < fl.length) (h2 : i + 1 < (AllClients.exportRows fl).length),
      (AllClients.exportRows fl).get ⟨i + 1, h2⟩ = AllClients.csvRow (fl.get ⟨i, h⟩)) ∧
    (∀ s : String, readQuoted (csvQuoteField s).data = some s.data) := by
  refine ⟨by simp [AllClients.exportRows], rfl, rfl, ?_, ?_⟩
  · intro i h h2
    simp [AllClients.exportRows, List.get_eq_getElem, List.getElem_cons_succ,
      List.getElem_map]
  · intro s
    have hdata : (csvQuoteField s).data = '"' :: (escQuotes s.data ++ ['"']) := by
      simp [csvQuoteField]
    rw [hdata, readQuoted, readQuotedAux_esc]

/-- C8 witness: the row correspondence at a singleton filtered view, and
the field round-trip on a value containing an embedded quote. -/
theorem export_csv_shape_witness :
    (AllClients.exportRows [sampleClient]).get ⟨1, by decide⟩
        = AllClients.csvRow sampleClient ∧
    readQuoted (csvQuoteField "a\"b").data = some "a\"b".data :=
  ⟨(export_csv_shape [sampleClient]).2.2.2.1 0 (by decide) (by decide),
   (export_csv_shape []).2.2.2.2 "a\"b"⟩

/-! ## C9 — tolerant listing-payload unwrapping -/

/-- C9: the unwrapper accepts exactly the fixed shapes of the source — a
bare array, or an array found at `.data`, `.properties`, `.success.data`
or `.data.data` (probed in that order) — returning that array unchanged;
and on any input where none of those positions holds an array (including
falsy values, which cannot) it returns the empty list. -/
theorem extractList_shapes :
    (∀ xs, extractList (.arr xs) = xs) ∧
    (∀ j xs, jsFalsy j = false → j.asArr = none →
      (j.get "data").bind JsVal.asArr = some xs → extractList j = xs) ∧
    (∀ j xs, jsFalsy j = false → j.asArr = none →
      (j.get "data").bind JsVal.asArr = none →
      (j.get "properties").bind JsVal.asArr = some xs → extractList j = xs) ∧
    (∀ j xs, jsFalsy j = false → j.asArr = none →
      (j.get "data").bind JsVal.asArr = none →
      (j.get "properties").bind JsVal.asArr = none →
      (((j.get "success").bind fun v => v.get "data").bind JsVal.asArr) = some xs →
      extractList j = xs) ∧
    (∀ j xs, jsFalsy j = false → j.asArr = none →
      (j.get "data").bind JsVal.asArr = none →
      (j.get "properties").bind JsVal.asArr = none →
      (((j.get "success").bind fun v => v.get "data").bind JsVal.asArr) = none →
      (((j.get "data").bind fun v => v.get "data").bind JsVal.asArr) = some xs →
      extractList j = xs) ∧
    (∀ j, j.asArr = none →
      (j.get "data").bind JsVal.asArr = none →
      (j.get "properties").bind JsVal.asArr = none →
      (((j.get "success").bind fun v => v.get "data").bind JsVal.asArr) = none →
      (((j.get "data").bind fun v => v.get "data").bind JsVal.asArr) = none →
      extractList j = []) := by
  refine ⟨?_, ?_, ?_, ?_, ?_, ?_⟩
  · intro xs
    rfl
  · intro j xs hfalsy hnotarr hdata
    simp [extractList, hfalsy, hnotarr, hdata]
  · intro j xs hfalsy hnotarr hdata hprops
    simp [extractList, hfalsy, hnotarr, hdata, hprops]
  · intro j xs hfalsy hnotarr hdata hprops hsucc
    simp [extractList, hfalsy, hnotarr, hdata, hprops, hsucc]
  · intro j xs hfalsy hnotarr hdata hprops hsucc hdd
    simp [extractList, hfalsy, hnotarr, hdata, hprops, hsucc, hdd]
  · intro j hnotarr hdata hprops hsucc hdd
    by_cases hfalsy : jsFalsy j <;>
      simp [extractList, hfalsy, hnotarr, hdata, hprops, hsucc, hdd]

/-- C9 witness: each accepted wrapper shape at a concrete payload, and a
non-matching input falling back to the empty list. -/
theorem extractList_shapes_witness :
    extractList (.arr [JsVal.num 7]) = [JsVal.num 7] ∧
    extractList (.obj [("data", .arr [JsVal.num 1])]) = [JsVal.num 1] ∧
    extractList (.obj [("properties", .arr [])]) = [] ∧
    extractList (.obj [("success", .obj [("data", .arr [JsVal.num 2])])]) = [JsVal.num 2] ∧
    extractList (.obj [("data", .obj [("data", .arr [JsVal.num 3])])]) = [JsVal.num 3] ∧
    extractList (.str "nope") = [] :=
  ⟨extractList_shapes.1 _,
   extractList_shapes.2.1 _ _ rfl rfl rfl,
   extractList_shapes.2.2.1 _ _ rfl rfl rfl rfl,
   extractList_shapes.2.2.2.1 _ _ rfl rfl rfl rfl rfl,
   extractList_shapes.2.2.2.2.1 _ _ rfl rfl rfl rfl rfl rfl,
   extractList_shapes.2.2.2.2.2 _ rfl rfl rfl rfl rfl⟩

end AdminConsole
